import Mathlib

/-!
Shallow embedding of the `logrus-text-formatter` repository (Go), for checking its
natural-language specification.

The repository contains several historical variants of the same text formatter:
* `V0`  : first variant in formatter.go (lines 1-219): colon-joined func, unsorted fields.
* `V1`  : second variant in formatter.go (lines 220-475): sorted fields, tab separators.
* `P1A` : first variant in src/unnamed/part_001 (lines 1-276): prefix/func fields with
  width padding and parenthesised trailing fields.
* `X`   : second variant in part_001 (lines 277-596): x-cray style, terminal detection,
  `prefixFieldClashes`, plain (non-formatted) layout, unsorted fields.
* `V3`  : third variant in part_001 (lines 597-902): tag/prefix/func fields with width
  padding, sorted fields, parenthesised trailing fields.

Modelling conventions:
* Go `string` is Lean `String`; Go byte length `len(s)` is modelled by `String.length`
  (character count), which agrees with Go for ASCII data.
* Go `logrus.Fields` (a `map[string]interface{}`) is modelled as an association list
  `List (String × FieldValue)`; quantifying over all lists covers every possible map
  iteration order.  Keys of a Go map are unique, so where it matters theorems carry a
  no-duplicate hypothesis.
* Dynamic field values (`interface{}`) are a closed variant: a plain Go string, a value
  implementing `fmt.Stringer`, a value implementing `error`, or an opaque value carried
  together with its rendered debug form.  The `fmt` verbs `%v`, `%#v`, `%T` are modelled
  on this variant; the opaque/struct-dump texts (which depend on Go runtime type
  information that is external to this code) are modelled as deterministic tags.
* ANSI color functions (`ansi.ColorFunc`, external) are abstract `String → String`
  parameters collected in a `Scheme`; `noColorsS` is the identity scheme matching the
  formatter's `noColors` value.
* `time.Time` values are modelled by their `Format` method (`String → String`), and the
  impure elapsed-time text `fmt.Sprintf("[%f]", miniTS())` is an explicit input.
-/

unseal String.ltb List.merge List.mergeSort

namespace LogrusTF

/-- logrus severity levels used by the formatter. -/
inductive GoLevel where
  | panic
  | fatal
  | error
  | warn
  | info
  | debug
deriving DecidableEq, Repr

/-- logrus `Level.String()`: note the canonical name of the warn level is "warning". -/
def GoLevel.toStr : GoLevel → String
  | .panic => "panic"
  | .fatal => "fatal"
  | .error => "error"
  | .warn => "warning"
  | .info => "info"
  | .debug => "debug"

/-- A dynamic Go field value (`interface{}`), as a closed variant.
`str` is a plain Go string, `stringer` a value whose `String()` method returns `s`,
`err` a (non-Stringer) value whose `Error()` method returns `msg`, and `other` an
opaque value carried with its rendered debug form. -/
inductive FieldValue where
  | str (s : String)
  | stringer (s : String)
  | err (msg : String)
  | other (dump : String)
deriving DecidableEq, Repr

/-- Go `%q` on an already-rendered string (escaping of exotic characters not modelled). -/
def goQuote (s : String) : String := "\"" ++ s ++ "\""

/-- Go `fmt.Sprintf("%v", v)` (and `%+v`, `%s` where the value supports it):
uses `String()` for Stringers and `Error()` for errors. -/
def FieldValue.goV : FieldValue → String
  | .str s => s
  | .stringer s => s
  | .err m => m
  | .other d => d

/-- Go `fmt.Sprintf("%#v", v)`: Go-syntax representation.  A plain string is quoted;
for the remaining cases the runtime struct dump is external and modelled by a
deterministic tagged text. -/
def FieldValue.goSharpV : FieldValue → String
  | .str s => goQuote s
  | .stringer s => "stringer(" ++ s ++ ")"
  | .err m => "error(" ++ m ++ ")"
  | .other d => d

/-- Go `fmt.Sprintf("%T", v)`: the dynamic type name, modelled deterministically. -/
def FieldValue.goT : FieldValue → String
  | .str _ => "string"
  | .stringer _ => "fmt.Stringer"
  | .err _ => "error"
  | .other _ => "other"

/-- `logrus.Fields`, with iteration order made explicit as list order. -/
abbrev Fields := List (String × FieldValue)

/-- Sequential buffer writes: the concatenation of a list of rendered pieces. -/
def strJoin : List String → String
  | [] => ""
  | x :: xs => x ++ strJoin xs

/-- The comparison used by `sort.Strings`: lexicographic string order (UTF-8 byte order
and code-point order coincide). -/
def strLeB (a b : String) : Bool := decide (a ≤ b)

/-- A compiled color scheme: one `String → String` decorator per semantic slot.
This is the superset of the slots of all variants:
`V0` uses info/warn/error/fatal/panic/debug + tagC (Tag), pfxC (Prefix), tsC (Timestamp);
`V1`/`V3` use the level slots + tagC (Tag), pfxC (Prefix), funcC (Func);
`P1A` uses the level slots + pfxC (Prefix), funcC (Func);
`X` uses the level slots + pfx1C (PrefixColor1), pfxC (PrefixColor2), tsC (Timestamp). -/
structure Scheme where
  debugC : String → String
  infoC : String → String
  warnC : String → String
  errorC : String → String
  fatalC : String → String
  panicC : String → String
  tagC : String → String
  pfxC : String → String
  funcC : String → String
  tsC : String → String
  pfx1C : String → String

/-- The `noColors` compiled scheme: every slot is `ansi.ColorFunc("")` alias `nocolor`,
i.e. the identity. -/
def noColorsS : Scheme := ⟨id, id, id, id, id, id, id, id, id, id, id⟩

/-- `strings.Repeat(" ", n)`. -/
def spaces (n : Nat) : String := String.mk (List.replicate n ' ')

/-- Go `fmt.Sprintf("%5s", s)` / `"% 16s"`: right-justify to a minimum width
(the width is counted in runes, blank-flag is a no-op for strings). -/
def padLeftTo (w : Nat) (s : String) : String :=
  if s.length < w then spaces (w - s.length) ++ s else s

/-- The level-to-color dispatch shared verbatim by every variant:
info/warn/error/fatal/panic map to their slot, everything else to the debug slot. -/
def levelColor (cs : Scheme) : GoLevel → (String → String)
  | .info => cs.infoC
  | .warn => cs.warnC
  | .error => cs.errorC
  | .fatal => cs.fatalC
  | .panic => cs.panicC
  | _ => cs.debugC

/-- Go `strings.ToUpper` (exact for the ASCII data appearing here); defined over the
character list so that the kernel can evaluate it. -/
def strToUpper (s : String) : String := String.mk (s.data.map Char.toUpper)

/-- The level-text rule shared verbatim by every colored layout: the warn level is
rendered as the literal "warn" instead of `Level.String()` (= "warning"), then
uppercased unless lowercase display is configured. -/
def levelText (lvl : GoLevel) (lowercase : Bool) : String :=
  let t := if lvl ≠ GoLevel.warn then lvl.toStr else "warn"
  if !lowercase then strToUpper t else t

/-- `time.RFC3339Nano`, the `defaultTimestampFormat` of every variant. -/
def defaultTimestampFormat : String := "2006-01-02T15:04:05.999999999Z07:00"

/-- A `logrus.Entry` as seen by `Format`.  `time` is the entry timestamp modelled by its
`Format` method; `buffer` is the optional pre-allocated output buffer (its current
contents); `loggerOut` models `entry.Logger`: `none` for a nil logger, `some c` for a
logger whose `Out` writer has terminal capability `c` (`checkIfTerminal`). -/
structure Entry where
  level : GoLevel
  time : String → String
  message : String
  data : Fields
  buffer : Option String := none
  loggerOut : Option Bool := none

/-! ## Variant V0: formatter.go, first part (lines 1-219) -/

/-- Configuration of the V0/V1 `Instance`. -/
structure ConfigV0 where
  useColors : Bool := false
  disableTimestamp : Bool := false
  lowercaseLevels : Bool := false
  fullTimestamp : Bool := false
  timestampFormat : String := ""
  colorScheme : Option Scheme := none

/-- The literal tag placeholder of V0 (15 spaces and a dash, 16 characters). -/
def tagPlaceholderV0 : String := "               -"

/-- V0 trailing-field rendering (formatter.go lines 210-214): Stringer values via
`String()` (uncolored), anything else via `%#v`; the key in the Prefix color. -/
def printFieldV0 (cs : Scheme) (k : String) (v : FieldValue) : String :=
  match v with
  | .stringer s => " " ++ cs.pfxC k ++ "=" ++ s
  | v => " " ++ cs.pfxC k ++ "=" ++ v.goSharpV

/-- The non-reserved-key test of the V0 field loop (formatter.go line 209). -/
def nonReservedV0 (k : String) : Bool :=
  k != "__p" && k != "__f" && k != "__t"

/-- The keys the V0 field loop renders, in the order it renders them: map iteration
order (= list order), reserved keys skipped.  V0 performs no sorting. -/
def keysRenderedV0 (data : Fields) : List String :=
  (data.filter (fun kv => nonReservedV0 kv.1)).map (·.1)

/-- The V0 trailing-fields section (formatter.go lines 208-216). -/
def trailingV0 (cs : Scheme) (data : Fields) : String :=
  strJoin ((data.filter (fun kv => nonReservedV0 kv.1)).map
    (fun kv => printFieldV0 cs kv.1 kv.2))

/-- The V0 color-scheme resolution (formatter.go lines 143-151). -/
def schemeV0 (f : ConfigV0) (dfltCompiled : Scheme) : Scheme :=
  if f.useColors then
    (match f.colorScheme with
      | some s => s
      | none => dfltCompiled)
  else noColorsS

/-- `Format` of variant V0 (formatter.go lines 131-219).  `dfltCompiled` is the
process-wide `defaultCompiledColorScheme` (external, built from `ansi.ColorFunc`);
`elapsed` is the impure `fmt.Sprintf("[%f]", miniTS())` text. -/
def formatV0 (f : ConfigV0) (dfltCompiled : Scheme) (elapsed : String) (e : Entry) :
    String × Option String :=
  let tsFormat := if f.timestampFormat = "" then defaultTimestampFormat else f.timestampFormat
  let cs := schemeV0 f dfltCompiled
  let lc := levelColor cs e.level
  let ltext := levelText e.level f.lowercaseLevels
  let tsPart := if !f.disableTimestamp then
      cs.tsC (if !f.fullTimestamp then elapsed else e.time tsFormat) ++ " "
    else ""
  let levelPart := lc (padLeftTo 5 ltext) ++ " "
  let tagPart := (match List.lookup "__t" e.data with
    | some v => cs.tagC v.goV
    | none => cs.tagC tagPlaceholderV0) ++ " "
  let pfxPart := match List.lookup "__p" e.data with
    | some v => cs.pfxC v.goV
    | none => cs.pfxC "__p<missing>"
  let funcPart := match List.lookup "__f" e.data with
    | some v => cs.pfxC (":" ++ v.goV)
    | none => ""
  ((e.buffer.getD "") ++ tsPart ++ levelPart ++ tagPart ++ pfxPart ++ funcPart
      ++ ": " ++ e.message ++ trailingV0 cs e.data ++ "\n", none)

/-! ## Variant V1: formatter.go, second part (lines 220-475) -/

/-- V1 error-value preprocessing (formatter.go lines 469-471): uppercase the first rune
of the error message and append a "!" marker (on the empty string,
`utf8.DecodeRuneInString` yields the replacement rune U+FFFD and width 0). -/
def goCapBang (s : String) : String :=
  match s.data with
  | [] => String.mk [Char.ofNat 0xFFFD] ++ "!"
  | c :: rest => String.mk (Char.toUpper c :: rest) ++ "!"

/-- V1 `printField` (formatter.go lines 464-475): key in `kcolor`; Stringer values via
`String()`, error values capitalized, "!"-suffixed and `%q`-quoted, anything else via
`%#v`; the value wrapped in `vcolor`. -/
def printFieldV1 (kcolor vcolor : String → String) (k : String) (v : FieldValue) : String :=
  match v with
  | .stringer s => " " ++ kcolor k ++ "=" ++ vcolor s
  | .err m => " " ++ kcolor k ++ "=" ++ vcolor (goQuote (goCapBang m))
  | v => " " ++ kcolor k ++ "=" ++ vcolor v.goSharpV

/-- The non-reserved-key test of the V1 field loop (formatter.go line 454);
`logrus.ErrorKey` is the literal "error". -/
def nonReservedV1 (k : String) : Bool :=
  !(k == "__p" || k == "__f" || k == "__t" || k == "error")

/-- V1 key collection (formatter.go lines 447-451): every key of the field mapping,
sorted with `sort.Strings`. -/
def sortedKeysV1 (data : Fields) : List String :=
  (data.map (·.1)).mergeSort strLeB

/-- The keys the V1 field loop renders, in the order it renders them: all keys sorted,
with the reserved keys skipped inside the loop (formatter.go lines 453-459). -/
def keysRenderedV1 (data : Fields) : List String :=
  (sortedKeysV1 data).filter (fun k => nonReservedV1 k)

/-- The V1 trailing-fields loop (formatter.go lines 453-459). -/
def trailingV1 (cs : Scheme) (lc : String → String) (data : Fields) : String :=
  strJoin ((sortedKeysV1 data).map (fun k =>
    if nonReservedV1 k then
      printFieldV1 cs.pfxC lc k ((List.lookup k data).getD (FieldValue.str ""))
    else ""))

/-- `Format` of variant V1 (formatter.go lines 359-475). -/
def formatV1 (f : ConfigV0) (dfltCompiled : Scheme) (elapsed : String) (e : Entry) :
    String × Option String :=
  let tsFormat := if f.timestampFormat = "" then defaultTimestampFormat else f.timestampFormat
  let cs := schemeV0 f dfltCompiled
  let lc := levelColor cs e.level
  let ltext := levelText e.level f.lowercaseLevels
  let tsPart := if !f.disableTimestamp then
      lc (if !f.fullTimestamp then elapsed else e.time tsFormat) ++ " "
    else ""
  let levelPart := lc (padLeftTo 5 ltext) ++ " "
  let tv := match List.lookup "__t" e.data with
    | some (.str s) => s
    | some v => v.goSharpV
    | none => "-"
  let tagPart := cs.tagC (padLeftTo 16 tv) ++ " "
  let pfxPart := match List.lookup "__p" e.data with
    | some (.str s) => cs.pfxC s
    | some (.stringer s) => cs.pfxC s
    | some v => cs.pfxC v.goT
    | none => cs.pfxC "__p<missing>"
  let funcPart := match List.lookup "__f" e.data with
    | some v => " " ++ cs.funcC v.goV
    | none => ""
  let errPart := match List.lookup "error" e.data with
    | some v => printFieldV1 cs.pfxC lc "error" v
    | none => ""
  ((e.buffer.getD "") ++ tsPart ++ levelPart ++ tagPart ++ pfxPart ++ funcPart
      ++ "\t" ++ lc e.message ++ "\t" ++ errPart ++ trailingV1 cs lc e.data ++ "\n", none)

/-! ## Shared trailing-field machinery of the part_001 variants (P1A and V3) -/

/-- The body of the part_001 `printField` (lines 268-275 and 894-901): Stringer values
via `String()`, error values rendered as browsable {message}, anything else via `%#v`;
key wrapped in `kcolor`, value in `vcolor`. -/
def printFieldBodyP1 (kcolor vcolor : String → String) (k : String) (v : FieldValue) :
    String :=
  match v with
  | .stringer s => kcolor k ++ "=" ++ vcolor s
  | .err m => kcolor k ++ "=\x7b" ++ vcolor m ++ "\x7d"
  | v => kcolor k ++ "=" ++ vcolor v.goSharpV

/-- The part_001 `printField` (lines 262-276 and 888-902): a leading " (" when this is
the first trailing field, a plain " " separator otherwise. -/
def printFieldP1 (kcolor vcolor : String → String) (k : String) (v : FieldValue)
    (first : Bool) : String :=
  (if first then " (" else " ") ++ printFieldBodyP1 kcolor vcolor k v

/-- The trailing-fields loop of the part_001 variants (lines 250-253 and 877-880):
the `n == 0 && !errpresent` flag is true exactly at the head of the key list when no
error field was printed. -/
def fieldsLoopP1 (rend : String → Bool → String) (ks : List String) (errpresent : Bool) :
    String :=
  match ks with
  | [] => ""
  | k :: rest => rend k (!errpresent) ++ strJoin (rest.map (fun x => rend x false))

/-- The whole trailing-fields section of the part_001 variants (lines 233-256 and
860-883): optional error field first, then the given keys, then a closing ")" when
anything was printed.  `rend` is the variant's `printField` partially applied to its
colors. -/
def trailingBlockP1 (rend : String → FieldValue → Bool → String)
    (errv : Option FieldValue) (ks : List String) (data : Fields) : String :=
  let errpresent := errv.isSome
  (match errv with
    | some v => rend "error" v true
    | none => "")
  ++ fieldsLoopP1
      (fun k first => rend k ((List.lookup k data).getD (FieldValue.str "")) first)
      ks errpresent
  ++ (if errpresent || !ks.isEmpty then ")" else "")

/-- The list of rendered trailing-field texts, in rendering order: the error field (if
present) first, then the given keys in order. -/
def trailingPartsP1 (body : String → FieldValue → String) (errv : Option FieldValue)
    (ks : List String) (data : Fields) : List String :=
  (match errv with
    | some v => [body "error" v]
    | none => [])
  ++ ks.map (fun k => body k ((List.lookup k data).getD (FieldValue.str "")))

/-- Modelled from the spec (section 4.4): fields separated by a single space. -/
def spaceSeparated : List String → String
  | [] => ""
  | [x] => x
  | x :: y :: rest => x ++ " " ++ spaceSeparated (y :: rest)

/-! ## Variant P1A: src/unnamed/part_001, first part (lines 1-276) -/

/-- Configuration of the P1A `Instance` (part_001 lines 44-69); `Nat` widths model the
non-negative Go `int` widths (a non-positive width pads like width 0). -/
structure ConfigP1A where
  useColors : Bool := false
  disableTimestamp : Bool := false
  lowercaseLevels : Bool := false
  fullTimestamp : Bool := false
  timestampFormat : String := ""
  pfxFieldName : String := ""
  pfxFieldWidth : Nat := 0
  funcFieldName : String := ""
  colorScheme : Option Scheme := none

/-- The `sync.Once` defaulting of the P1A prefix key name (part_001 lines 143-145). -/
def ConfigP1A.pfxName (f : ConfigP1A) : String :=
  if f.pfxFieldName = "" then "__p" else f.pfxFieldName

/-- The `sync.Once` defaulting of the P1A function key name (part_001 lines 146-148). -/
def ConfigP1A.funcName (f : ConfigP1A) : String :=
  if f.funcFieldName = "" then "__f" else f.funcFieldName

/-- The `sync.Once` scheme resolution of P1A (part_001 lines 152-158). -/
def ConfigP1A.scheme (f : ConfigP1A) (dfltCompiled : Scheme) : Scheme :=
  match f.colorScheme with
  | some s => s
  | none => if f.useColors then dfltCompiled else noColorsS

/-- Source lines 219-223 (and 829-833, 851-855 of V3): the trailing padding of a
fixed-width column: width − length + 1 spaces when the text is shorter than the target,
a single space otherwise. -/
def padTail (flen width : Nat) : String :=
  if flen < width then spaces (width - flen + 1) else " "

/-- P1A key collection (part_001 lines 239-248): the non-reserved keys, sorted. -/
def keysP1A (f : ConfigP1A) (data : Fields) : List String :=
  ((data.map (·.1)).filter
    (fun k => !(k == f.pfxName || k == f.funcName || k == "error"))).mergeSort strLeB

/-- The rendered P1A prefix text (part_001 lines 209-214). -/
def pfxStrP1A (f : ConfigP1A) (data : Fields) : String :=
  match List.lookup f.pfxName data with
  | some v => v.goV
  | none => f.pfxName ++ "<missing>"

/-- `Format` of variant P1A (part_001 lines 140-260).  Note P1A pads the prefix column
before the function suffix, keys its trailing fields in the Func color, and renders
them parenthesised. -/
def formatP1A (f : ConfigP1A) (dfltCompiled : Scheme) (elapsed : String) (e : Entry) :
    String × Option String :=
  let cs := f.scheme dfltCompiled
  let tsFormat := if f.timestampFormat = "" then defaultTimestampFormat else f.timestampFormat
  let lc := levelColor cs e.level
  let ltext := levelText e.level f.lowercaseLevels
  let tsPart := if !f.disableTimestamp then
      lc (if !f.fullTimestamp then elapsed else e.time tsFormat) ++ " "
    else ""
  let levelPart := lc (padLeftTo 5 ltext)
  let pfxPart := " " ++ cs.pfxC (pfxStrP1A f e.data)
  let pfxPad := padTail (pfxStrP1A f e.data).length f.pfxFieldWidth
  let funcPart := match List.lookup f.funcName e.data with
    | some v => " " ++ cs.funcC v.goV
    | none => ""
  let trailing := trailingBlockP1 (printFieldP1 cs.funcC lc)
    (List.lookup "error" e.data) (keysP1A f e.data) e.data
  ((e.buffer.getD "") ++ tsPart ++ levelPart ++ pfxPart ++ pfxPad ++ funcPart
      ++ " " ++ lc e.message ++ trailing ++ "\n", none)

/-! ## Variant X: src/unnamed/part_001, second part (lines 277-596) -/

/-- Configuration of the X (terminal-detecting) `Instance` (part_001 lines 317-355);
`QuoteEmptyFields`/`QuoteCharacter` are declared by the source but never read by
`Format`, so they are omitted from the model. -/
structure ConfigX where
  forceColors : Bool := false
  disableColors : Bool := false
  forceFormatting : Bool := false
  disableTimestamp : Bool := false
  disableUppercase : Bool := false
  fullTimestamp : Bool := false
  timestampFormat : String := ""
  colorScheme : Option Scheme := none

/-- The mutable per-instance state of the X variant: the cached terminal flag and the
`sync.Once` guard. -/
structure StateX where
  isTerminal : Bool := false
  once : Bool := false
deriving DecidableEq, Repr

/-- The result of one X `Format` call: the returned bytes and error, the (possibly
mutated) field mapping, and the instance state after the call. -/
structure XResult where
  out : String
  err : Option String
  data : Fields
  state : StateX

/-- Go map assignment `data[k] = v` on the association-list model: overwrite in place
when the key is present, append otherwise. -/
def setKV (data : Fields) (k : String) (v : FieldValue) : Fields :=
  if (List.lookup k data).isSome then
    data.map (fun kv => if kv.1 = k then (k, v) else kv)
  else data ++ [(k, v)]

/-- part_001 lines 584-596: copy user values stored under "time", "msg" or "level" to
the prefixed alternate keys (the originals are left in place). -/
def prefixFieldClashes (data : Fields) : Fields :=
  let d1 := match List.lookup "time" data with
    | some t => setKV data "fields.time" t
    | none => data
  let d2 := match List.lookup "msg" d1 with
    | some m => setKV d1 "fields.msg" m
    | none => d1
  match List.lookup "level" d2 with
  | some l => setKV d2 "fields.level" l
  | none => d2

/-- X `appendValue` (part_001 lines 563-573): strings verbatim, errors via `Error()`,
anything else via `fmt.Fprint` (= `%v`). -/
def appendValueX : FieldValue → String
  | .str s => s
  | .err m => m
  | .stringer s => s
  | .other d => d

/-- X `appendKeyValue` (part_001 lines 553-561). -/
def appendKeyValueX (k : String) (v : FieldValue) (appendSpace : Bool) : String :=
  k ++ "=" ++ appendValueX v ++ (if appendSpace then " " else "")

/-- X `printColored` (part_001 lines 490-551).  `keys` is the key list captured from
the field mapping before `prefixFieldClashes` ran; `data` is the mapping after. -/
def printColoredX (f : ConfigX) (e : Entry) (keys : List String) (data : Fields)
    (tsFormat : String) (cs : Scheme) (elapsed : String) : String :=
  let lc := levelColor cs e.level
  let ltext := levelText e.level f.disableUppercase
  let tsPart := if !f.disableTimestamp then
      cs.tsC (if !f.fullTimestamp then elapsed else e.time tsFormat) ++ " "
    else ""
  let levelPart := lc (padLeftTo 5 ltext) ++ " "
  let tagPart := match List.lookup "__t" data with
    | some v => cs.pfx1C (":" ++ v.goV ++ ":") ++ " "
    | none => ""
  let pfxPart := match List.lookup "__p" data with
    | some v => cs.pfxC v.goV
    | none => cs.pfxC "__p<missing>"
  let funcPart := match List.lookup "__f" data with
    | some v => cs.pfxC ("." ++ v.goV)
    | none => ""
  let trailing := strJoin (keys.map (fun k =>
    if k != "__p" && k != "__f" && k != "__t" then
      " " ++ cs.pfxC k ++ "=" ++ ((List.lookup k data).getD (FieldValue.str "")).goV
    else ""))
  tsPart ++ levelPart ++ tagPart ++ pfxPart ++ funcPart ++ ": " ++ e.message ++ trailing

/-- The X plain (non-formatted) layout (part_001 lines 473-484). -/
def plainX (f : ConfigX) (e : Entry) (keys : List String) (data : Fields)
    (tsFormat : String) : String :=
  let lastKeyIdx : Int := (keys.length : Int) - 1
  (if !f.disableTimestamp then appendKeyValueX "time" (.str (e.time tsFormat)) true
   else "")
  ++ appendKeyValueX "level" (.str e.level.toStr) true
  ++ (if e.message != "" then
        appendKeyValueX "msg" (.str e.message) (decide (0 ≤ lastKeyIdx))
      else "")
  ++ strJoin (keys.enum.map (fun p =>
      appendKeyValueX p.2 ((List.lookup p.2 data).getD (FieldValue.str ""))
        (decide (lastKeyIdx ≠ (p.1 : Int)))))

/-- `Format` of the X variant (part_001 lines 436-488), as a state transition.
The key list is captured before `prefixFieldClashes` mutates the mapping; the
`sync.Once` init captures the terminal capability of the first entry's logger output
(a nil logger leaves the cached flag untouched). -/
def formatX (f : ConfigX) (s : StateX) (dfltCompiled : Scheme) (elapsed : String)
    (e : Entry) : XResult :=
  let keys := e.data.map (·.1)
  let data2 := prefixFieldClashes e.data
  let s2 := if s.once then s else
    { isTerminal := (match e.loggerOut with
        | some c => c
        | none => s.isTerminal),
      once := true }
  let isFormatted := f.forceFormatting || s2.isTerminal
  let tsFormat := if f.timestampFormat = "" then defaultTimestampFormat
    else f.timestampFormat
  let body := if isFormatted then
      let isColored := (f.forceColors || s2.isTerminal) && !f.disableColors
      let cs := if isColored then
          (match f.colorScheme with
            | some cs0 => cs0
            | none => dfltCompiled)
        else noColorsS
      printColoredX f e keys data2 tsFormat cs elapsed
    else
      plainX f e keys data2 tsFormat
  { out := (e.buffer.getD "") ++ body ++ "\n", err := none, data := data2, state := s2 }

/-! ## Variant V3: src/unnamed/part_001, third part (lines 597-902) -/

/-- Configuration of the V3 `Instance` (part_001 lines 641-668). -/
structure ConfigV3 where
  useColors : Bool := false
  disableTimestamp : Bool := false
  lowercaseLevels : Bool := false
  fullTimestamp : Bool := false
  timestampFormat : String := ""
  pfxFieldName : String := ""
  pfxFieldWidth : Nat := 0
  funcFieldName : String := ""
  tagFieldName : String := ""
  tagFieldWidth : Nat := 0
  colorScheme : Option Scheme := none

/-- The `sync.Once` defaulting of the V3 prefix key name (part_001 lines 745-747). -/
def ConfigV3.pfxName (f : ConfigV3) : String :=
  if f.pfxFieldName = "" then "__p" else f.pfxFieldName

/-- The `sync.Once` defaulting of the V3 tag key name (part_001 lines 748-750). -/
def ConfigV3.tagName (f : ConfigV3) : String :=
  if f.tagFieldName = "" then "__t" else f.tagFieldName

/-- The `sync.Once` defaulting of the V3 function key name (part_001 lines 751-753). -/
def ConfigV3.funcName (f : ConfigV3) : String :=
  if f.funcFieldName = "" then "__f" else f.funcFieldName

/-- The `sync.Once` defaulting of the V3 timestamp format (part_001 lines 754-756). -/
def ConfigV3.tsFormat (f : ConfigV3) : String :=
  if f.timestampFormat = "" then defaultTimestampFormat else f.timestampFormat

/-- The `sync.Once` scheme resolution of V3 (part_001 lines 757-763). -/
def schemeV3 (f : ConfigV3) (dfltCompiled : Scheme) : Scheme :=
  match f.colorScheme with
  | some s => s
  | none => if f.useColors then dfltCompiled else noColorsS

/-- The rendered V3 tag text (part_001 lines 816-825): Stringer values via `String()`,
any other present value via `%#v`, the literal "-" when absent. -/
def tagStrV3 (f : ConfigV3) (data : Fields) : String :=
  match List.lookup f.tagName data with
  | some (.stringer s) => s
  | some v => v.goSharpV
  | none => "-"

/-- The rendered V3 prefix text (part_001 lines 836-840). -/
def pfxStrV3 (f : ConfigV3) (data : Fields) : String :=
  match List.lookup f.pfxName data with
  | some v => v.goV
  | none => f.pfxName ++ "<missing>"

/-- The rendered V3 function suffix (part_001 lines 845-849): a dot-joined suffix in
the Func color, absent entirely when the field is missing. -/
def funcPartV3 (f : ConfigV3) (cs : Scheme) (data : Fields) : String :=
  match List.lookup f.funcName data with
  | some v => "." ++ cs.funcC v.goV
  | none => ""

/-- The width the V3 prefix padding measures (part_001 lines 842-851): the uncolored
prefix text plus, when present, the dot and the uncolored function text. -/
def pfxFuncLenV3 (f : ConfigV3) (data : Fields) : Nat :=
  match List.lookup f.funcName data with
  | some v => (pfxStrV3 f data).length + (v.goV.length + 1)
  | none => (pfxStrV3 f data).length

/-- V3 key collection (part_001 lines 866-875): the non-reserved keys, sorted. -/
def keysV3 (f : ConfigV3) (data : Fields) : List String :=
  ((data.map (·.1)).filter
    (fun k => !(k == f.pfxName || k == f.tagName || k == f.funcName || k == "error")))
    |>.mergeSort strLeB

/-- The whole V3 trailing-fields section (part_001 lines 860-883): keys in the Prefix
color, values in the level color. -/
def trailingV3 (f : ConfigV3) (cs : Scheme) (lc : String → String) (data : Fields) :
    String :=
  trailingBlockP1 (printFieldP1 cs.pfxC lc) (List.lookup "error" data)
    (keysV3 f data) data

/-- `Format` of variant V3 (part_001 lines 742-886). -/
def formatV3 (f : ConfigV3) (dfltCompiled : Scheme) (elapsed : String) (e : Entry) :
    String × Option String :=
  let cs := schemeV3 f dfltCompiled
  let lc := levelColor cs e.level
  let ltext := levelText e.level f.lowercaseLevels
  let tsPart := if !f.disableTimestamp then
      lc (if !f.fullTimestamp then elapsed else e.time f.tsFormat) ++ " "
    else ""
  let levelPart := lc (padLeftTo 5 ltext)
  let tagPart := " " ++ cs.tagC (tagStrV3 f e.data)
  let tagPad := padTail (tagStrV3 f e.data).length f.tagFieldWidth
  let pfxPart := cs.pfxC (pfxStrV3 f e.data)
  let pfxPad := padTail (pfxFuncLenV3 f e.data) f.pfxFieldWidth
  ((e.buffer.getD "") ++ tsPart ++ levelPart ++ tagPart ++ tagPad ++ pfxPart
      ++ funcPartV3 f cs e.data ++ pfxPad ++ " " ++ lc e.message
      ++ trailingV3 f cs lc e.data ++ "\n", none)

/-! ## Helper lemmas -/

theorem spaces_length (n : Nat) : (spaces n).length = n := by
  simp [spaces, String.length]

theorem spaces_data (n : Nat) : (spaces n).data = List.replicate n ' ' := rfl

theorem strJoin_append (xs ys : List String) :
    strJoin (xs ++ ys) = strJoin xs ++ strJoin ys := by
  induction xs with
  | nil => simp [strJoin]
  | cons x xs ih => simp [strJoin, ih, String.append_assoc]

theorem spaceSeparated_cons (x : String) (xs : List String) :
    spaceSeparated (x :: xs) = x ++ strJoin (xs.map (fun s => " " ++ s)) := by
  induction xs generalizing x with
  | nil => simp [spaceSeparated, strJoin]
  | cons y rest ih =>
    simp only [spaceSeparated, ih y, strJoin, List.map_cons, String.append_assoc]

theorem fieldsLoopP1_of_errpresent (rend : String → Bool → String) (ks : List String) :
    fieldsLoopP1 rend ks true = strJoin (ks.map (fun k => rend k false)) := by
  cases ks <;> simp [fieldsLoopP1, strJoin]

/-- The imperative first-flag loop with its closing paren equals the spec shape:
nothing when there is no trailing field, otherwise " (" ++ the space-separated field
texts ++ ")". -/
theorem trailingBlockP1_eq (kcolor vcolor : String → String) (errv : Option FieldValue)
    (ks : List String) (data : Fields) :
    trailingBlockP1 (printFieldP1 kcolor vcolor) errv ks data
      = (if trailingPartsP1 (printFieldBodyP1 kcolor vcolor) errv ks data = [] then ""
         else " (" ++ spaceSeparated
             (trailingPartsP1 (printFieldBodyP1 kcolor vcolor) errv ks data) ++ ")") := by
  cases errv with
  | some v =>
    rw [show trailingPartsP1 (printFieldBodyP1 kcolor vcolor) (some v) ks data
        = printFieldBodyP1 kcolor vcolor "error" v
          :: ks.map (fun k =>
              printFieldBodyP1 kcolor vcolor k ((List.lookup k data).getD (FieldValue.str "")))
      from by simp [trailingPartsP1]]
    rw [spaceSeparated_cons]
    simp [trailingBlockP1, fieldsLoopP1_of_errpresent, printFieldP1, List.map_map,
      Function.comp_def, String.append_assoc]
  | none =>
    cases ks with
    | nil => simp [trailingBlockP1, trailingPartsP1, fieldsLoopP1]
    | cons k rest =>
      rw [show trailingPartsP1 (printFieldBodyP1 kcolor vcolor) none (k :: rest) data
          = printFieldBodyP1 kcolor vcolor k ((List.lookup k data).getD (FieldValue.str ""))
            :: rest.map (fun x =>
                printFieldBodyP1 kcolor vcolor x ((List.lookup x data).getD (FieldValue.str "")))
        from by simp [trailingPartsP1]]
      rw [spaceSeparated_cons]
      simp [trailingBlockP1, fieldsLoopP1, printFieldP1, List.map_map,
        Function.comp_def, String.append_assoc]

theorem strLeB_trans (a b c : String) : strLeB a b → strLeB b c → strLeB a c := by
  simp only [strLeB, decide_eq_true_eq]
  exact le_trans

theorem strLeB_total (a b : String) : strLeB a b || strLeB b a := by
  simp only [strLeB, Bool.or_eq_true, decide_eq_true_eq]
  exact le_total a b

theorem sorted_mergeSort_strLeB (l : List String) :
    List.Sorted (· ≤ ·) (l.mergeSort strLeB) := by
  have h : (l.mergeSort strLeB).Pairwise (fun a b => strLeB a b) :=
    List.sorted_mergeSort (fun a b c => strLeB_trans a b c) strLeB_total l
  exact h.imp (fun hab => by simpa [strLeB] using hab)

theorem mergeSort_strLeB_perm_eq {l₁ l₂ : List String} (h : l₁.Perm l₂) :
    l₁.mergeSort strLeB = l₂.mergeSort strLeB := by
  refine List.eq_of_perm_of_sorted ?_ (sorted_mergeSort_strLeB l₁) (sorted_mergeSort_strLeB l₂)
  exact ((List.mergeSort_perm l₁ strLeB).trans h).trans (List.mergeSort_perm l₂ strLeB).symm

theorem prefixFieldClashes_of_clashFree (data : Fields)
    (ht : List.lookup "time" data = none) (hm : List.lookup "msg" data = none)
    (hl : List.lookup "level" data = none) :
    prefixFieldClashes data = data := by
  simp only [prefixFieldClashes, ht, hm, hl]

/-! ## Claim theorems -/

/-- C1, counterexample: the claim fails on the first formatter.go variant (and likewise
on the terminal-detecting variant): its field loop iterates the mapping in iteration
order without sorting, so the mapping [("b", "1"), ("a", "2")] renders its keys in the
order b, a, which is not lexicographically sorted. -/
theorem c1_sorted_keys_cex :
    keysRenderedV0 [("b", FieldValue.str "1"), ("a", FieldValue.str "2")] = ["b", "a"]
    ∧ ¬ List.Sorted (· ≤ ·)
        (keysRenderedV0 [("b", FieldValue.str "1"), ("a", FieldValue.str "2")])
    ∧ (formatV0 { disableTimestamp := true } noColorsS "[0.000000]"
        { level := .info, time := fun _ => "", message := "m",
          data := [("b", FieldValue.str "1"), ("a", FieldValue.str "2")] }).1
      = " INFO                - __p<missing>: m b=\"1\" a=\"2\"\n" :=
  ⟨by decide, by decide, by decide⟩

/-- C1, amended: in the variants that sort (the second formatter.go variant and the
part_001 tag/prefix/func variant), the non-reserved keys render in lexicographically
sorted order for every iteration order of the field mapping, and the rendered key
sequence of the sorting variant is invariant under permutation of the mapping. -/
theorem c1_sorted_keys_amended (f3 : ConfigV3) (d₁ d₂ : Fields) :
    List.Sorted (· ≤ ·) (keysRenderedV1 d₁)
    ∧ List.Sorted (· ≤ ·) (keysV3 f3 d₁)
    ∧ (d₁.Perm d₂ → keysRenderedV1 d₁ = keysRenderedV1 d₂) := by
  refine ⟨?_, ?_, ?_⟩
  · exact (sorted_mergeSort_strLeB _).filter _
  · exact sorted_mergeSort_strLeB _
  · intro h
    unfold keysRenderedV1 sortedKeysV1
    rw [mergeSort_strLeB_perm_eq (h.map (·.1))]

/-- C1, witness for the amended theorem at a two-field mapping and a transposition. -/
theorem c1_sorted_keys_amended_wit :
    ([("b", FieldValue.str "1"), ("a", FieldValue.str "2")] : Fields).Perm
        [("a", FieldValue.str "2"), ("b", FieldValue.str "1")]
    ∧ keysRenderedV1 [("b", FieldValue.str "1"), ("a", FieldValue.str "2")]
      = keysRenderedV1 [("a", FieldValue.str "2"), ("b", FieldValue.str "1")] :=
  ⟨List.Perm.swap _ _ _,
   (c1_sorted_keys_amended {} _ _).2.2 (List.Perm.swap _ _ _)⟩

/-- C2: for every configuration, state, scheme, elapsed text and entry, every variant's
`Format` returns a nil error: there is no failing path. -/
theorem c2_format_never_errors (f0 : ConfigV0) (fp : ConfigP1A) (f3 : ConfigV3)
    (fx : ConfigX) (s : StateX) (dflt : Scheme) (el : String) (e : Entry) :
    (formatV0 f0 dflt el e).2 = none
    ∧ (formatV1 f0 dflt el e).2 = none
    ∧ (formatP1A fp dflt el e).2 = none
    ∧ (formatV3 f3 dflt el e).2 = none
    ∧ (formatX fx s dflt el e).err = none :=
  ⟨rfl, rfl, rfl, rfl, rfl⟩

/-- C3: the level text: warn renders as the 4-character literal "warn", uppercased to
"WARN" unless lowercase display is configured; every other level renders its canonical
logrus name, uppercased under the same condition. -/
theorem c3_warn_level_text (lc : Bool) (l : GoLevel) (h : l ≠ GoLevel.warn) :
    levelText GoLevel.warn false = "WARN"
    ∧ levelText GoLevel.warn true = "warn"
    ∧ (levelText GoLevel.warn true).length = 4
    ∧ levelText l lc = (if lc then l.toStr else strToUpper l.toStr) := by
  refine ⟨by decide, by decide, by decide, ?_⟩
  cases l <;> first
    | exact absurd rfl h
    | cases lc <;> decide

/-- C3, witness at the info level with lowercase display. -/
theorem c3_warn_level_text_wit :
    GoLevel.info ≠ GoLevel.warn
    ∧ levelText GoLevel.info true
      = (if true then GoLevel.info.toStr else strToUpper GoLevel.info.toStr) :=
  ⟨by decide, (c3_warn_level_text true GoLevel.info (by decide)).2.2.2⟩

/-- C4: the claim is the code's own documented intent, but the code violates it: the
key list is captured before `prefixFieldClashes` runs, so on a record whose mapping
contains "level" the plain layout renders a duplicate "level" key with the user value
and never renders the "fields.level" key that the clash guard added to the mapping. -/
theorem c4_clash_guard_bug :
    (formatX { disableTimestamp := true } {} noColorsS "[0.000000]"
        { level := .info, time := fun _ => "", message := "hello",
          data := [("level", FieldValue.str "1")] }).out
      = "level=info msg=hello level=1\n"
    ∧ List.lookup "fields.level"
        (formatX { disableTimestamp := true } {} noColorsS "[0.000000]"
          { level := .info, time := fun _ => "", message := "hello",
            data := [("level", FieldValue.str "1")] }).data
      = some (FieldValue.str "1")
    ∧ ¬ List.IsInfix "fields.level".data
        ((formatX { disableTimestamp := true } {} noColorsS "[0.000000]"
          { level := .info, time := fun _ => "", message := "hello",
            data := [("level", FieldValue.str "1")] }).out).data :=
  ⟨by decide, by decide, by decide⟩

/-- C5, counterexample: formatting the same record twice (fresh buffers, identical
elapsed text, timestamps disabled so the elapsed-time exception does not apply) is not
idempotent when the mapping contains a clash key: the first call's `prefixFieldClashes`
mutation adds "fields.time", which the second call renders as an extra field. -/
theorem c5_idempotence_cex :
    (formatX { disableTimestamp := true } {} noColorsS "[0.000000]"
        { level := .info, time := fun _ => "", message := "hello",
          data := [("time", FieldValue.str "x")] }).out
      = "level=info msg=hello time=x\n"
    ∧ (formatX { disableTimestamp := true }
        (formatX { disableTimestamp := true } {} noColorsS "[0.000000]"
          { level := .info, time := fun _ => "", message := "hello",
            data := [("time", FieldValue.str "x")] }).state
        noColorsS "[0.000000]"
        { level := .info, time := fun _ => "", message := "hello",
          data := (formatX { disableTimestamp := true } {} noColorsS "[0.000000]"
            { level := .info, time := fun _ => "", message := "hello",
              data := [("time", FieldValue.str "x")] }).data }).out
      = "level=info msg=hello time=x fields.time=x\n"
    ∧ ("level=info msg=hello time=x\n" : String)
      ≠ "level=info msg=hello time=x fields.time=x\n" :=
  ⟨by decide, by decide, by decide⟩

/-- C5, amended: formatting the same record twice with fresh buffers and the same
elapsed-time text yields byte-identical output provided the record's field mapping
contains none of the clash keys "time", "msg", "level" (for those, the clash-guard
mutation changes the mapping between the calls). -/
theorem c5_idempotence_amended (f : ConfigX) (s : StateX) (dflt : Scheme) (el : String)
    (e : Entry) (ht : List.lookup "time" e.data = none)
    (hm : List.lookup "msg" e.data = none) (hl : List.lookup "level" e.data = none) :
    (formatX f (formatX f s dflt el e).state dflt el
        { e with data := (formatX f s dflt el e).data }).out
      = (formatX f s dflt el e).out := by
  have hd : (formatX f s dflt el e).data = e.data :=
    prefixFieldClashes_of_clashFree e.data ht hm hl
  rw [show ({ e with data := (formatX f s dflt el e).data } : Entry) = e from by
    rw [hd]]
  by_cases h : s.once = true
  · simp [formatX, h]
  · simp only [Bool.not_eq_true] at h
    simp [formatX, h]

/-- C5, witness for the amended theorem at a clash-free one-field record. -/
theorem c5_idempotence_amended_wit :
    List.lookup "time" ([("a", FieldValue.str "1")] : Fields) = none
    ∧ List.lookup "msg" ([("a", FieldValue.str "1")] : Fields) = none
    ∧ List.lookup "level" ([("a", FieldValue.str "1")] : Fields) = none
    ∧ (formatX { disableTimestamp := true }
        (formatX { disableTimestamp := true } {} noColorsS "[0.000000]"
          { level := .info, time := fun _ => "", message := "m",
            data := [("a", FieldValue.str "1")] }).state
        noColorsS "[0.000000]"
        { level := GoLevel.info, time := fun _ => "", message := "m",
          data := (formatX { disableTimestamp := true } {} noColorsS "[0.000000]"
            { level := .info, time := fun _ => "", message := "m",
              data := [("a", FieldValue.str "1")] }).data }).out
      = (formatX { disableTimestamp := true } {} noColorsS "[0.000000]"
          { level := .info, time := fun _ => "", message := "m",
            data := [("a", FieldValue.str "1")] }).out :=
  ⟨by decide, by decide, by decide,
   c5_idempotence_amended { disableTimestamp := true } {} noColorsS "[0.000000]"
     { level := .info, time := fun _ => "", message := "m",
       data := [("a", FieldValue.str "1")] } (by decide) (by decide) (by decide)⟩

/-- The V3 output up to and excluding the prefix column (used to locate the sentinel
inside the assembled output). -/
def headSentV3 (f : ConfigV3) (dflt : Scheme) (el : String) (e : Entry) : String :=
  (e.buffer.getD "")
  ++ (if !f.disableTimestamp then
        levelColor (schemeV3 f dflt) e.level
          (if !f.fullTimestamp then el else e.time f.tsFormat) ++ " "
      else "")
  ++ levelColor (schemeV3 f dflt) e.level (padLeftTo 5 (levelText e.level f.lowercaseLevels))
  ++ (" " ++ (schemeV3 f dflt).tagC (tagStrV3 f e.data))
  ++ padTail (tagStrV3 f e.data).length f.tagFieldWidth

/-- The V3 output after the prefix column. -/
def tailSentV3 (f : ConfigV3) (dflt : Scheme) (e : Entry) : String :=
  funcPartV3 f (schemeV3 f dflt) e.data
  ++ padTail (pfxFuncLenV3 f e.data) f.pfxFieldWidth
  ++ " " ++ levelColor (schemeV3 f dflt) e.level e.message
  ++ trailingV3 f (schemeV3 f dflt) (levelColor (schemeV3 f dflt) e.level) e.data
  ++ "\n"

/-- The P1A output up to and excluding the prefix column. -/
def headSentP1A (fp : ConfigP1A) (dflt : Scheme) (el : String) (e : Entry) : String :=
  (e.buffer.getD "")
  ++ (if !fp.disableTimestamp then
        levelColor (fp.scheme dflt) e.level
          (if !fp.fullTimestamp then el
           else e.time (if fp.timestampFormat = "" then defaultTimestampFormat
             else fp.timestampFormat)) ++ " "
      else "")
  ++ levelColor (fp.scheme dflt) e.level (padLeftTo 5 (levelText e.level fp.lowercaseLevels))
  ++ " "

/-- The P1A output after the prefix column. -/
def tailSentP1A (fp : ConfigP1A) (dflt : Scheme) (e : Entry) : String :=
  padTail (pfxStrP1A fp e.data).length fp.pfxFieldWidth
  ++ (match List.lookup fp.funcName e.data with
      | some v => " " ++ (fp.scheme dflt).funcC v.goV
      | none => "")
  ++ " " ++ levelColor (fp.scheme dflt) e.level e.message
  ++ trailingBlockP1
      (printFieldP1 (fp.scheme dflt).funcC (levelColor (fp.scheme dflt) e.level))
      (List.lookup "error" e.data) (keysP1A fp e.data) e.data
  ++ "\n"

/-- The V3 output up to and excluding the trailing-fields section. -/
def headTrailV3 (f : ConfigV3) (dflt : Scheme) (el : String) (e : Entry) : String :=
  (e.buffer.getD "")
  ++ (if !f.disableTimestamp then
        levelColor (schemeV3 f dflt) e.level
          (if !f.fullTimestamp then el else e.time f.tsFormat) ++ " "
      else "")
  ++ levelColor (schemeV3 f dflt) e.level (padLeftTo 5 (levelText e.level f.lowercaseLevels))
  ++ (" " ++ (schemeV3 f dflt).tagC (tagStrV3 f e.data))
  ++ padTail (tagStrV3 f e.data).length f.tagFieldWidth
  ++ (schemeV3 f dflt).pfxC (pfxStrV3 f e.data)
  ++ funcPartV3 f (schemeV3 f dflt) e.data
  ++ padTail (pfxFuncLenV3 f e.data) f.pfxFieldWidth
  ++ " " ++ levelColor (schemeV3 f dflt) e.level e.message

/-- C6: the rendered fixed-width column (text plus trailing padding) is always at least
the target width plus one separator space wide; it always begins with the whole text
(no truncation) and always ends in at least one space; precisely, its width is the
maximum of target+1 and text-length+1. -/
theorem c6_padding_invariant (text : String) (w : Nat) :
    w + 1 ≤ (text ++ padTail text.length w).length
    ∧ (text ++ padTail text.length w).length = max (w + 1) (text.length + 1)
    ∧ 1 ≤ (padTail text.length w).length
    ∧ (∀ c ∈ (padTail text.length w).data, c = ' ') := by
  have hp : (padTail text.length w).length
      = if text.length < w then w - text.length + 1 else 1 := by
    unfold padTail
    by_cases h : text.length < w
    · simp [h, spaces_length]
    · rw [if_neg h, if_neg h]
      decide
  have hpd : ∀ c ∈ (padTail text.length w).data, c = ' ' := by
    unfold padTail
    by_cases h : text.length < w
    · simp only [h, if_true]
      intro c hc
      rw [spaces_data] at hc
      exact List.eq_of_mem_replicate hc
    · simp only [h, if_false]
      intro c hc
      simpa using hc
  refine ⟨?_, ?_, ?_, hpd⟩
  · rw [String.length_append, hp]
    split <;> omega
  · rw [String.length_append, hp]
    split <;> omega
  · rw [hp]
    split <;> omega

/-- C6, witness at text "ab" and target width 5. -/
theorem c6_padding_invariant_wit :
    5 + 1 ≤ (("ab" : String) ++ padTail ("ab" : String).length 5).length :=
  (c6_padding_invariant "ab" 5).1

/-- C7: when the (possibly overridden) prefix key is absent from the record's field
mapping, both part_001 variants with configurable names render the sentinel consisting
of the resolved prefix key name followed by the literal "<missing>", wrapped in the
Prefix color.  (The first formatter.go variant hardcodes the same sentinel text
"__p<missing>" for its fixed key "__p".) -/
theorem c7_missing_prefix_sentinel (f : ConfigV3) (fp : ConfigP1A) (dflt : Scheme)
    (el el' : String) (e e' : Entry)
    (h : List.lookup f.pfxName e.data = none)
    (hp : List.lookup fp.pfxName e'.data = none) :
    (∃ a b, (formatV3 f dflt el e).1
        = a ++ (schemeV3 f dflt).pfxC (f.pfxName ++ "<missing>") ++ b)
    ∧ (∃ a b, (formatP1A fp dflt el' e').1
        = a ++ (fp.scheme dflt).pfxC (fp.pfxName ++ "<missing>") ++ b) := by
  constructor
  · refine ⟨headSentV3 f dflt el e, tailSentV3 f dflt e, ?_⟩
    simp [formatV3, headSentV3, tailSentV3, trailingV3, pfxStrV3, h, String.append_assoc]
  · refine ⟨headSentP1A fp dflt el' e', tailSentP1A fp dflt e', ?_⟩
    simp [formatP1A, headSentP1A, tailSentP1A, pfxStrP1A, hp, String.append_assoc]

/-- C7, witness: default P1A configuration and a V3 configuration with the prefix key
name overridden to "zz", on records with empty field mappings. -/
theorem c7_missing_prefix_sentinel_wit :
    List.lookup (ConfigV3.pfxName { pfxFieldName := "zz" }) ([] : Fields) = none
    ∧ List.lookup (ConfigP1A.pfxName {}) ([] : Fields) = none
    ∧ ((∃ a b, (formatV3 { pfxFieldName := "zz" } noColorsS "[0.000000]"
          { level := .info, time := fun _ => "", message := "m", data := [] }).1
        = a ++ (schemeV3 { pfxFieldName := "zz" } noColorsS).pfxC
            (ConfigV3.pfxName { pfxFieldName := "zz" } ++ "<missing>") ++ b)
      ∧ (∃ a b, (formatP1A {} noColorsS "[0.000000]"
            { level := .info, time := fun _ => "", message := "m", data := [] }).1
          = a ++ (ConfigP1A.scheme {} noColorsS).pfxC
              (ConfigP1A.pfxName {} ++ "<missing>") ++ b)) :=
  ⟨by decide, by decide,
   c7_missing_prefix_sentinel { pfxFieldName := "zz" } {} noColorsS
     "[0.000000]" "[0.000000]"
     { level := .info, time := fun _ => "", message := "m", data := [] }
     { level := .info, time := fun _ => "", message := "m", data := [] }
     (by decide) (by decide)⟩

/-- C8: in the parenthesised layout shared by the part_001 variants, the trailing-fields
section is empty when there is no trailing field, and otherwise consists of " (", the
space-separated field texts, and exactly one closing ")". -/
theorem c8_paren_layout (kcolor vcolor : String → String) (errv : Option FieldValue)
    (ks : List String) (data : Fields) :
    trailingBlockP1 (printFieldP1 kcolor vcolor) errv ks data
      = (if trailingPartsP1 (printFieldBodyP1 kcolor vcolor) errv ks data = [] then ""
         else " (" ++ spaceSeparated
             (trailingPartsP1 (printFieldBodyP1 kcolor vcolor) errv ks data) ++ ")") :=
  trailingBlockP1_eq kcolor vcolor errv ks data

/-- C9: when the field mapping contains the designated error key, the V3 trailing
section renders the error field first, before every other non-reserved field,
regardless of where "error" would fall in the sorted key order. -/
theorem c9_error_field_first (f : ConfigV3) (dflt : Scheme) (el : String) (e : Entry)
    (v : FieldValue) (h : List.lookup "error" e.data = some v) :
    trailingPartsP1
        (printFieldBodyP1 (schemeV3 f dflt).pfxC (levelColor (schemeV3 f dflt) e.level))
        (List.lookup "error" e.data) (keysV3 f e.data) e.data
      = printFieldBodyP1 (schemeV3 f dflt).pfxC (levelColor (schemeV3 f dflt) e.level)
          "error" v
        :: (keysV3 f e.data).map (fun k =>
            printFieldBodyP1 (schemeV3 f dflt).pfxC (levelColor (schemeV3 f dflt) e.level)
              k ((List.lookup k e.data).getD (FieldValue.str "")))
    ∧ ∃ a rest,
        trailingV3 f (schemeV3 f dflt) (levelColor (schemeV3 f dflt) e.level) e.data
          = " (" ++ printFieldBodyP1 (schemeV3 f dflt).pfxC
              (levelColor (schemeV3 f dflt) e.level) "error" v ++ rest
        ∧ (formatV3 f dflt el e).1
          = a ++ trailingV3 f (schemeV3 f dflt) (levelColor (schemeV3 f dflt) e.level)
              e.data ++ "\n" := by
  refine ⟨by simp [trailingPartsP1, h], ?_⟩
  refine ⟨headTrailV3 f dflt el e,
    strJoin (((keysV3 f e.data).map (fun k =>
        printFieldBodyP1 (schemeV3 f dflt).pfxC (levelColor (schemeV3 f dflt) e.level) k
          ((List.lookup k e.data).getD (FieldValue.str "")))).map (fun s => " " ++ s))
      ++ ")", ?_, ?_⟩
  · rw [trailingV3, trailingBlockP1_eq]
    rw [show trailingPartsP1
          (printFieldBodyP1 (schemeV3 f dflt).pfxC (levelColor (schemeV3 f dflt) e.level))
          (List.lookup "error" e.data) (keysV3 f e.data) e.data
        = printFieldBodyP1 (schemeV3 f dflt).pfxC (levelColor (schemeV3 f dflt) e.level)
            "error" v
          :: (keysV3 f e.data).map (fun k =>
              printFieldBodyP1 (schemeV3 f dflt).pfxC
                (levelColor (schemeV3 f dflt) e.level) k
                ((List.lookup k e.data).getD (FieldValue.str "")))
      from by simp [trailingPartsP1, h]]
    rw [spaceSeparated_cons]
    simp [String.append_assoc]
  · rfl

/-- C9, witness: a record whose only field is the error field. -/
theorem c9_error_field_first_wit :
    List.lookup "error" ([("error", FieldValue.err "boom")] : Fields)
      = some (FieldValue.err "boom")
    ∧ ∃ a rest,
        trailingV3 {} (schemeV3 {} noColorsS)
            (levelColor (schemeV3 {} noColorsS) GoLevel.info)
            ([("error", FieldValue.err "boom")] : Fields)
          = " (" ++ printFieldBodyP1 (schemeV3 {} noColorsS).pfxC
              (levelColor (schemeV3 {} noColorsS) GoLevel.info) "error"
              (FieldValue.err "boom") ++ rest
        ∧ (formatV3 {} noColorsS "[0.000000]"
            { level := .info, time := fun _ => "", message := "m",
              data := [("error", FieldValue.err "boom")] }).1
          = a ++ trailingV3 {} (schemeV3 {} noColorsS)
              (levelColor (schemeV3 {} noColorsS) GoLevel.info)
              ([("error", FieldValue.err "boom")] : Fields) ++ "\n" :=
  ⟨by decide,
   (c9_error_field_first {} noColorsS "[0.000000]"
     { level := .info, time := fun _ => "", message := "m",
       data := [("error", FieldValue.err "boom")] }
     (FieldValue.err "boom") (by decide)).2⟩

/-- C10: in the terminal-detecting variant, the first `Format` call on a fresh instance
captures the terminal capability of that entry's logger output (leaving it untouched for
a nil logger) and sets the once-guard; every later call leaves the state unchanged and
produces output that does not depend on the later entry's logger output. -/
theorem c10_terminal_cached (f : ConfigX) (dflt : Scheme) (el : String) :
    (∀ (s : StateX) (e : Entry), s.once = false →
        (formatX f s dflt el e).state
          = { isTerminal := (match e.loggerOut with
                | some c => c
                | none => s.isTerminal),
              once := true })
    ∧ (∀ (s : StateX) (e : Entry), s.once = true → (formatX f s dflt el e).state = s)
    ∧ (∀ (s : StateX) (e : Entry) (o₁ o₂ : Option Bool), s.once = true →
        (formatX f s dflt el { e with loggerOut := o₁ }).out
          = (formatX f s dflt el { e with loggerOut := o₂ }).out
        ∧ (formatX f s dflt el { e with loggerOut := o₁ }).state
          = (formatX f s dflt el { e with loggerOut := o₂ }).state) := by
  refine ⟨?_, ?_, ?_⟩
  · intro s e h
    simp [formatX, h]
  · intro s e h
    simp [formatX, h]
  · intro s e o₁ o₂ h
    constructor <;> simp [formatX, printColoredX, plainX, h]

/-- C10, witness: an initialized instance state reused with two different logger
outputs yields the same output and state. -/
theorem c10_terminal_cached_wit :
    ({ isTerminal := true, once := true } : StateX).once = true
    ∧ (formatX {} { isTerminal := true, once := true } noColorsS "[0.000000]"
        { level := .info, time := fun _ => "", message := "m", data := [],
          loggerOut := some false }).out
      = (formatX {} { isTerminal := true, once := true } noColorsS "[0.000000]"
          { level := .info, time := fun _ => "", message := "m", data := [],
            loggerOut := none }).out :=
  ⟨rfl,
   ((c10_terminal_cached {} noColorsS "[0.000000]").2.2
     { isTerminal := true, once := true }
     { level := .info, time := fun _ => "", message := "m", data := [] }
     (some false) none rfl).1⟩

end LogrusTF
